import Mathlib

/-!
Shallow embedding of the wsflight flight-dynamics core (TypeScript) in Lean 4.

Numbers (JS doubles) are modelled as exact rationals; the transcendental
functions of the JS Math object (sqrt, sin, cos, acos, atan2, exp) and the
constant Math.PI have no exact rational counterpart, so every definition that
uses them is parametrised by a record of such functions.  Theorems quantify
over that record (adding only the hypotheses about it that a proof needs, each
one true of the real functions), so they hold in particular for the intended
real-number instantiation.

Sources embedded here:
  src/physics/environment/PhysicsEnvironment.ts
  src/physics/aerodynamics/AerodynamicsModel.ts
  src/physics/engine/PropellerEngine.ts
  src/physics/types.ts (componentised Aircraft class)
  src/main.ts (autopilot module: PIDController, AutopilotController)
-/

namespace WsFlight

/-- World-space vector, from the Vector3 interface of src/physics/types.ts. -/
structure Vec3 where
  x : ℚ
  y : ℚ
  z : ℚ
deriving DecidableEq, Repr

/-- Euler-angle triple, from the Attitude interface of src/physics/types.ts. -/
structure Att where
  pitch : ℚ
  roll : ℚ
  yaw : ℚ
deriving DecidableEq, Repr

/-- Control inputs, from the Controls interface of src/physics/types.ts. -/
structure Controls where
  elevator : ℚ
  aileron : ℚ
  rudder : ℚ
  flaps : ℚ
  throttle : ℚ
deriving DecidableEq, Repr

/-- A TypeScript `Partial of Controls`: every field optional. -/
structure OptControls where
  elevator : Option ℚ := none
  aileron : Option ℚ := none
  rudder : Option ℚ := none
  flaps : Option ℚ := none
  throttle : Option ℚ := none
deriving DecidableEq, Repr

/-- The JS Math functions used by the physics code, abstracted: the code calls
Math.sqrt, Math.cos, Math.sin, Math.acos, Math.atan2, Math.exp and reads
Math.PI.  A value of this type supplies rational stand-ins for them; theorems
quantify over it. -/
structure MathOps where
  sqrt : ℚ → ℚ
  cos : ℚ → ℚ
  sin : ℚ → ℚ
  acos : ℚ → ℚ
  atan2 : ℚ → ℚ → ℚ
  exp : ℚ → ℚ
  pi : ℚ

/-! ## PhysicsEnvironment (src/physics/environment/PhysicsEnvironment.ts) -/

/-- Density table of PhysicsEnvironment.getAirDensity (values every 4000 m). -/
def rhoTab : List ℚ :=
  [1.224991, 0.819122, 0.529999, 0.299988, 0.153000, 0.084991]

/-- Speed-of-sound table of PhysicsEnvironment.getMachOne. -/
def machTab : List ℚ :=
  [340.294, 324.579, 308.063, 295.069, 295.069, 295.069]

/-- PhysicsEnvironment.getAirDensity: linear interpolation of rhoTab with
clamping below index 0 and above index 4. -/
def getAirDensity (altitude : ℚ) : ℚ :=
  let a : ℤ := ⌊altitude / 4000⌋
  if a < 0 then rhoTab.getD 0 0
  else if 4 < a then rhoTab.getD 5 0
  else
    let base := rhoTab.getD a.toNat 0
    let diff := rhoTab.getD (a.toNat + 1) 0 - rhoTab.getD a.toNat 0
    let t := (altitude - 4000 * (a : ℚ)) / 4000
    base + diff * t

/-- PhysicsEnvironment.getMachOne: linear interpolation of machTab; note the
source clamps the high side to machTab[4] (equal to machTab[5]). -/
def getMachOne (altitude : ℚ) : ℚ :=
  let a : ℤ := ⌊altitude / 4000⌋
  if a < 0 then machTab.getD 0 0
  else if 4 < a then machTab.getD 4 0
  else
    let base := machTab.getD a.toNat 0
    let diff := machTab.getD (a.toNat + 1) 0 - machTab.getD a.toNat 0
    let t := (altitude - 4000 * (a : ℚ)) / 4000
    base + diff * t

/-- Atmospheric sample, from the AtmosphericData interface. -/
structure AtmosphericData where
  density : ℚ
  machOne : ℚ
  temperature : ℚ
deriving DecidableEq, Repr

/-- PhysicsEnvironment.getAtmosphericData: density and speed of sound from the
tables, temperature computed as machOne^2 * 0.029 / (gamma * R) with
gamma = 1.4 and R = 287.05, exactly as in the source. -/
def getAtmosphericData (altitude : ℚ) : AtmosphericData :=
  let density := getAirDensity altitude
  let machOne := getMachOne altitude
  let gamma : ℚ := 1.4
  let r : ℚ := 287.05
  let temperature := machOne ^ 2 * 0.029 / (gamma * r)
  { density := density, machOne := machOne, temperature := temperature }

/-! Interpolation helper used to reason about the middle branch of
getAirDensity. -/

/-- Value of the linear interpolation of a table on segment k at point x,
matching the base/diff/t expression of the source. -/
def interpAt (tab : List ℚ) (k : ℤ) (x : ℚ) : ℚ :=
  tab.getD k.toNat 0 +
    (tab.getD (k.toNat + 1) 0 - tab.getD k.toNat 0) * ((x - 4000 * (k : ℚ)) / 4000)

theorem getAirDensity_mid (altitude : ℚ)
    (h0 : ¬ ⌊altitude / 4000⌋ < 0) (h4 : ¬ 4 < ⌊altitude / 4000⌋) :
    getAirDensity altitude = interpAt rhoTab ⌊altitude / 4000⌋ altitude := by
  simp only [getAirDensity, interpAt, h0, h4, if_false]

theorem getAirDensity_high (altitude : ℚ)
    (h0 : ¬ ⌊altitude / 4000⌋ < 0) (h4 : 4 < ⌊altitude / 4000⌋) :
    getAirDensity altitude = rhoTab.getD 5 0 := by
  simp only [getAirDensity, h0, h4, if_false, if_true]

/-- Entries of the density table decrease as the index grows. -/
theorem rhoTab_anti (i j : ℕ) (hij : i ≤ j) (hj : j ≤ 5) :
    rhoTab.getD j 0 ≤ rhoTab.getD i 0 := by
  interval_cases j <;> interval_cases i <;>
    norm_num [rhoTab, List.getD_cons_succ, List.getD_cons_zero]

/-- On segment k the interpolated density lies between the two bracketing
table entries. -/
theorem interp_bounds (k : ℤ) (x : ℚ) (hk0 : 0 ≤ k) (hk4 : k ≤ 4)
    (hx1 : 4000 * (k : ℚ) ≤ x) (hx2 : x ≤ 4000 * ((k : ℚ) + 1)) :
    rhoTab.getD (k.toNat + 1) 0 ≤ interpAt rhoTab k x ∧
      interpAt rhoTab k x ≤ rhoTab.getD k.toNat 0 := by
  have hdiff : rhoTab.getD (k.toNat + 1) 0 ≤ rhoTab.getD k.toNat 0 :=
    rhoTab_anti k.toNat (k.toNat + 1) (Nat.le_succ _) (by omega)
  have ht0 : 0 ≤ (x - 4000 * (k : ℚ)) / 4000 := by
    apply div_nonneg (by linarith) (by norm_num)
  have ht1 : (x - 4000 * (k : ℚ)) / 4000 ≤ 1 := by
    rw [div_le_one (by norm_num)]; linarith
  unfold interpAt
  constructor
  · nlinarith [mul_nonneg (sub_nonneg.mpr ht1) (sub_nonneg.mpr hdiff)]
  · nlinarith [mul_nonneg ht0 (sub_nonneg.mpr hdiff)]

/-- On a fixed segment the interpolation of the density table is
non-increasing in the altitude. -/
theorem interp_mono (k : ℤ) (x y : ℚ) (hk0 : 0 ≤ k) (hk4 : k ≤ 4) (hxy : x ≤ y) :
    interpAt rhoTab k y ≤ interpAt rhoTab k x := by
  have hdiff : rhoTab.getD (k.toNat + 1) 0 ≤ rhoTab.getD k.toNat 0 :=
    rhoTab_anti k.toNat (k.toNat + 1) (Nat.le_succ _) (by omega)
  unfold interpAt
  nlinarith [mul_nonneg (sub_nonneg.mpr hxy) (sub_nonneg.mpr hdiff)]

/-- C1: atmospheric density is monotonically non-increasing in altitude: for
every pair of altitudes a1 < a2, both within [0, 20000], the linearly
interpolated 6-point table of getAirDensity gives
getAirDensity a1 >= getAirDensity a2. -/
theorem C1_airDensity_antitone (a1 a2 : ℚ) (h0 : 0 ≤ a1) (h12 : a1 < a2)
    (h2 : a2 ≤ 20000) : getAirDensity a2 ≤ getAirDensity a1 := by
  have h4000 : (0 : ℚ) < 4000 := by norm_num
  have hk1_0 : 0 ≤ ⌊a1 / 4000⌋ := Int.le_floor.mpr (by positivity)
  have ha1lt : a1 < 20000 := lt_of_lt_of_le h12 h2
  have hk1_4 : ⌊a1 / 4000⌋ < 5 :=
    Int.floor_lt.mpr (by rw [div_lt_iff₀ h4000]; push_cast; linarith)
  have hk2_0 : 0 ≤ ⌊a2 / 4000⌋ := Int.le_floor.mpr
    (by push_cast; exact div_nonneg (by linarith) (by norm_num))
  have hk12 : ⌊a1 / 4000⌋ ≤ ⌊a2 / 4000⌋ :=
    Int.floor_le_floor ((div_le_div_iff_of_pos_right h4000).mpr h12.le)
  have hb1 : 4000 * ((⌊a1 / 4000⌋ : ℤ) : ℚ) ≤ a1 := by
    have h := Int.floor_le (a1 / 4000)
    rw [le_div_iff₀ h4000] at h; linarith
  have hb1' : a1 < 4000 * (((⌊a1 / 4000⌋ : ℤ) : ℚ) + 1) := by
    have h := Int.lt_floor_add_one (a1 / 4000)
    rw [div_lt_iff₀ h4000] at h; linarith
  have hd1 : getAirDensity a1 = interpAt rhoTab ⌊a1 / 4000⌋ a1 :=
    getAirDensity_mid a1 (by omega) (by omega)
  by_cases hc : 4 < ⌊a2 / 4000⌋
  · have hd2 : getAirDensity a2 = rhoTab.getD 5 0 := getAirDensity_high a2 (by omega) hc
    rw [hd1, hd2]
    have hlow := (interp_bounds ⌊a1 / 4000⌋ a1 hk1_0 (by omega) hb1 hb1'.le).1
    have hchain : rhoTab.getD 5 0 ≤ rhoTab.getD (⌊a1 / 4000⌋.toNat + 1) 0 :=
      rhoTab_anti _ 5 (by omega) le_rfl
    linarith
  · push_neg at hc
    have hb2 : 4000 * ((⌊a2 / 4000⌋ : ℤ) : ℚ) ≤ a2 := by
      have h := Int.floor_le (a2 / 4000)
      rw [le_div_iff₀ h4000] at h; linarith
    have hb2' : a2 < 4000 * (((⌊a2 / 4000⌋ : ℤ) : ℚ) + 1) := by
      have h := Int.lt_floor_add_one (a2 / 4000)
      rw [div_lt_iff₀ h4000] at h; linarith
    have hd2 : getAirDensity a2 = interpAt rhoTab ⌊a2 / 4000⌋ a2 :=
      getAirDensity_mid a2 (by omega) (by omega)
    rw [hd1, hd2]
    rcases eq_or_lt_of_le hk12 with heq | hlt
    · rw [← heq]
      exact interp_mono ⌊a1 / 4000⌋ a1 a2 hk1_0 (by omega) h12.le
    · have h1 := (interp_bounds ⌊a1 / 4000⌋ a1 hk1_0 (by omega) hb1 hb1'.le).1
      have h2b := (interp_bounds ⌊a2 / 4000⌋ a2 hk2_0 hc hb2 hb2'.le).2
      have hmid : rhoTab.getD ⌊a2 / 4000⌋.toNat 0 ≤
          rhoTab.getD (⌊a1 / 4000⌋.toNat + 1) 0 :=
        rhoTab_anti (⌊a1 / 4000⌋.toNat + 1) ⌊a2 / 4000⌋.toNat (by omega) (by omega)
      linarith

/-- Witness for C1 at the concrete pair a1 = 1000, a2 = 5000. -/
theorem C1_airDensity_antitone_witness :
    (0 : ℚ) ≤ 1000 ∧ (1000 : ℚ) < 5000 ∧ (5000 : ℚ) ≤ 20000 ∧
      getAirDensity 5000 ≤ getAirDensity 1000 :=
  ⟨by norm_num, by norm_num, by norm_num,
    C1_airDensity_antitone 1000 5000 (by norm_num) (by norm_num) (by norm_num)⟩

/-- C8 counterexample: at altitude 0 the reported temperature is
machOne^2 * 0.029 / (gamma * R), not machOne^2 / (gamma * R) as claimed; the
two values differ. -/
theorem C8_temperature_counterexample :
    (getAtmosphericData 0).temperature ≠
      (getAtmosphericData 0).machOne ^ 2 / (1.4 * 287.05) := by
  norm_num [getAtmosphericData, getMachOne, machTab,
    List.getD_cons_succ, List.getD_cons_zero]

/-- C8 (amended): for every altitude, the reported temperature equals
machOne(altitude)^2 * 0.029 / (gamma * R) with gamma = 1.4 and R = 287.05 (the
source multiplies by the extra constant 0.029, per its comment
T = c^2 * M / (gamma * R)). -/
theorem C8_temperature_formula (altitude : ℚ) :
    (getAtmosphericData altitude).temperature =
      getMachOne altitude ^ 2 * 0.029 / (1.4 * 287.05) := rfl

/-! ## AerodynamicsModel (src/physics/aerodynamics/AerodynamicsModel.ts) -/

/-- Aerodynamic properties, from the Aerodynamics interface of types.ts. -/
structure Aerodynamics where
  wingArea : ℚ
  aspectRatio : ℚ
  dragCoefficient : ℚ
  liftSlopeCurve : ℚ
  zeroLiftAoA : ℚ
  stallAngleHigh : ℚ
  stallAngleLow : ℚ
deriving DecidableEq, Repr

/-- Return record of AerodynamicsModel.calculateForces. -/
structure AeroOut where
  lift : Vec3
  drag : Vec3
  moments : Att
deriving DecidableEq, Repr

/-- AerodynamicsModel.getLiftCoefficient: linear in the pre-stall band,
blended with a flat-plate term past either stall angle using an exponential
decay weight. -/
def getLiftCoefficient (m : MathOps) (p : Aerodynamics) (angleOfAttack : ℚ) : ℚ :=
  let normalLift := p.liftSlopeCurve * (angleOfAttack - p.zeroLiftAoA)
  if angleOfAttack > p.stallAngleHigh then
    let stallExcess := angleOfAttack - p.stallAngleHigh
    let stallFactor := m.exp (-stallExcess * 5)
    let stallLift := normalLift * stallFactor
    stallLift + (1 - stallFactor) * m.cos angleOfAttack * 2 * m.pi
  else if angleOfAttack < p.stallAngleLow then
    let stallExcess := p.stallAngleLow - angleOfAttack
    let stallFactor := m.exp (-stallExcess * 5)
    let stallLift := normalLift * stallFactor
    stallLift + (1 - stallFactor) * m.cos angleOfAttack * 2 * m.pi
  else normalLift

/-- AerodynamicsModel.getDragCoefficient: parasitic plus induced drag. -/
def getDragCoefficient (m : MathOps) (p : Aerodynamics) (liftCoefficient : ℚ) : ℚ :=
  p.dragCoefficient + liftCoefficient ^ 2 / (m.pi * p.aspectRatio * 0.85)

/-- AerodynamicsModel.calculateForces: near-zero velocity short-circuits to
all-zero output; otherwise dynamic pressure, angle of attack from the
clamped dot product, lift/drag magnitudes, lift direction from a cross
product, and control moments with fixed gains. -/
def aeroForces (m : MathOps) (p : Aerodynamics) (velocity : Vec3)
    (attitude : Att) (controls : Controls) (airDensity : ℚ) : AeroOut :=
  let velocityMagnitude := m.sqrt (velocity.x * velocity.x +
    velocity.y * velocity.y + velocity.z * velocity.z)
  if velocityMagnitude < 0.001 then
    { lift := ⟨0, 0, 0⟩, drag := ⟨0, 0, 0⟩, moments := ⟨0, 0, 0⟩ }
  else
    let dynamicPressure := 0.5 * airDensity * velocityMagnitude * velocityMagnitude
    let forwardVector : Vec3 :=
      ⟨m.cos attitude.yaw * m.cos attitude.pitch, m.sin attitude.pitch,
        m.sin attitude.yaw * m.cos attitude.pitch⟩
    let normalizedVelocity : Vec3 :=
      ⟨velocity.x / velocityMagnitude, velocity.y / velocityMagnitude,
        velocity.z / velocityMagnitude⟩
    let dotProduct := forwardVector.x * normalizedVelocity.x +
      forwardVector.y * normalizedVelocity.y + forwardVector.z * normalizedVelocity.z
    let angleOfAttack := m.acos (max (-1) (min 1 dotProduct))
    let liftCoefficient := getLiftCoefficient m p angleOfAttack
    let dragCoefficient := getDragCoefficient m p liftCoefficient
    let liftMagnitude := dynamicPressure * p.wingArea * liftCoefficient
    let dragMagnitude := dynamicPressure * p.wingArea * dragCoefficient
    let liftDirection0 : Vec3 := ⟨normalizedVelocity.z, 0, -normalizedVelocity.x⟩
    let liftDirectionMagnitude := m.sqrt (liftDirection0.x * liftDirection0.x +
      liftDirection0.y * liftDirection0.y + liftDirection0.z * liftDirection0.z)
    let liftDirection : Vec3 :=
      if liftDirectionMagnitude > 0.001 then
        ⟨liftDirection0.x / liftDirectionMagnitude,
          liftDirection0.y / liftDirectionMagnitude,
          liftDirection0.z / liftDirectionMagnitude⟩
      else liftDirection0
    let moments : Att := ⟨controls.elevator * 1, controls.aileron * 1, controls.rudder * 0.5⟩
    let lift : Vec3 := ⟨liftDirection.x * liftMagnitude, liftDirection.y * liftMagnitude,
      liftDirection.z * liftMagnitude⟩
    let drag : Vec3 := ⟨-normalizedVelocity.x * dragMagnitude,
      -normalizedVelocity.y * dragMagnitude, -normalizedVelocity.z * dragMagnitude⟩
    { lift := lift, drag := drag, moments := moments }

/-- The default aerodynamic properties built by the Aircraft constructor. -/
def defaultAero (m : MathOps) : Aerodynamics :=
  { wingArea := 16.2, aspectRatio := 7.32, dragCoefficient := 0.027,
    liftSlopeCurve := 6.28, zeroLiftAoA := -2 * m.pi / 180,
    stallAngleHigh := 15 * m.pi / 180, stallAngleLow := -12 * m.pi / 180 }

/-- An all-zero instantiation of the abstracted Math functions: it satisfies
sqrt 0 = 0 like the real functions and lets witnesses evaluate. -/
def mathZero : MathOps :=
  { sqrt := fun _ => 0, cos := fun _ => 0, sin := fun _ => 0,
    acos := fun _ => 0, atan2 := fun _ _ => 0, exp := fun _ => 0, pi := 0 }

/-- C3: if the velocity vector is (0,0,0), so its magnitude is below the
near-zero threshold 0.001, AerodynamicsModel.calculateForces returns zero
lift, zero drag and zero moments for every attitude, controls record and air
density (for every Math instantiation whose sqrt maps 0 to 0, as the real
one does). -/
theorem C3_zeroVelocity_zeroForces (m : MathOps) (p : Aerodynamics)
    (attitude : Att) (controls : Controls) (airDensity : ℚ)
    (hsqrt : m.sqrt 0 = 0) :
    aeroForces m p ⟨0, 0, 0⟩ attitude controls airDensity =
      { lift := ⟨0, 0, 0⟩, drag := ⟨0, 0, 0⟩, moments := ⟨0, 0, 0⟩ } := by
  unfold aeroForces
  norm_num [hsqrt]

/-- Witness for C3 with the all-zero Math instantiation, the default
aerodynamic properties, and concrete attitude, controls and density. -/
theorem C3_zeroVelocity_zeroForces_witness :
    mathZero.sqrt 0 = 0 ∧
      aeroForces mathZero (defaultAero mathZero) ⟨0, 0, 0⟩ ⟨0.1, 0.2, 0.3⟩
          ⟨1, 1, 1, 1, 1⟩ 1.225 =
        { lift := ⟨0, 0, 0⟩, drag := ⟨0, 0, 0⟩, moments := ⟨0, 0, 0⟩ } :=
  ⟨rfl, C3_zeroVelocity_zeroForces mathZero (defaultAero mathZero)
    ⟨0.1, 0.2, 0.3⟩ ⟨1, 1, 1, 1, 1⟩ 1.225 rfl⟩

/-! ## Autopilot module (src/main.ts: PIDController, AutopilotController) -/

/-- Gains and output limits of a PIDController (constructor arguments). -/
structure PIDGains where
  kP : ℚ
  kI : ℚ
  kD : ℚ
  outputMin : ℚ
  outputMax : ℚ
deriving DecidableEq, Repr

/-- Mutable state of a PIDController: integral accumulator and
previous-error memory. -/
structure PIDState where
  integral : ℚ
  previousError : ℚ
deriving DecidableEq, Repr

/-- Freshly constructed PIDController state: both fields start at 0; the
reset() method restores exactly this state. -/
def pidInit : PIDState := { integral := 0, previousError := 0 }

/-- PIDController.compute: proportional + integral + derivative, clamped to
[outputMin, outputMax]; returns the output together with the updated state. -/
def pidCompute (g : PIDGains) (s : PIDState) (error deltaTime : ℚ) : ℚ × PIDState :=
  let pTerm := g.kP * error
  let integral := s.integral + error * deltaTime
  let iTerm := g.kI * integral
  let derivative := (error - s.previousError) / deltaTime
  let dTerm := g.kD * derivative
  let output := pTerm + iTerm + dTerm
  let clamped := max g.outputMin (min g.outputMax output)
  (clamped, { integral := integral, previousError := error })

/-- The AutopilotMode enum of src/main.ts. -/
inductive APMode
  | off
  | headingHold
  | altitudeHold
  | navigation
  | approach
  | full
deriving DecidableEq, Repr

/-- AutopilotController state: mode, the three PID states, and the target
settings the control loops read. -/
structure APState where
  mode : APMode
  headingPID : PIDState
  altitudePID : PIDState
  speedPID : PIDState
  targetHeading : ℚ
  targetAltitude : ℚ
  targetSpeed : ℚ
deriving DecidableEq, Repr

/-- Gains of the heading PID (AutopilotController constructor). -/
def headingGains : PIDGains :=
  { kP := 0.01, kI := 0.001, kD := 0.05, outputMin := -1, outputMax := 1 }

/-- Gains of the altitude PID (AutopilotController constructor). -/
def altitudeGains : PIDGains :=
  { kP := 0.01, kI := 0.0005, kD := 0.05, outputMin := -1, outputMax := 1 }

/-- Gains of the speed PID (AutopilotController constructor). -/
def speedGains : PIDGains :=
  { kP := 0.01, kI := 0.001, kD := 0.02, outputMin := -1, outputMax := 1 }

/-- AutopilotController initial state (constructor defaults). -/
def apInit : APState :=
  { mode := APMode.off, headingPID := pidInit, altitudePID := pidInit,
    speedPID := pidInit, targetHeading := 0, targetAltitude := 1000,
    targetSpeed := 120 }

/-- AutopilotController.setMode: when the mode actually changes, all three
PID controllers are reset; otherwise nothing happens. -/
def setMode (a : APState) (mode : APMode) : APState :=
  if a.mode ≠ mode then
    { a with
      mode := mode
      headingPID := pidInit
      altitudePID := pidInit
      speedPID := pidInit }
  else a

/-- The heading-error computation of AutopilotController.controlHeading:
difference, then one wraparound correction in each direction. -/
def headingError (targetHeading currentHeading : ℚ) : ℚ :=
  let error := targetHeading - currentHeading
  let error1 := if error > 180 then error - 360 else error
  if error1 < -180 then error1 + 360 else error1

/-- AutopilotController.controlHeading: the wrapped error is fed to the
heading PID. -/
def controlHeading (a : APState) (currentHeading deltaTime : ℚ) : ℚ × PIDState :=
  pidCompute headingGains a.headingPID
    (headingError a.targetHeading currentHeading) deltaTime

/-- AutopilotController.controlAltitude: straight difference fed to the
altitude PID. -/
def controlAltitude (a : APState) (currentAltitude deltaTime : ℚ) : ℚ × PIDState :=
  pidCompute altitudeGains a.altitudePID (a.targetAltitude - currentAltitude) deltaTime

/-- AutopilotController.controlSpeed: the speed PID output in [-1,1] is
mapped through (output + 1) / 2 before being used as throttle. -/
def controlSpeed (a : APState) (currentSpeed deltaTime : ℚ) : ℚ × PIDState :=
  let r := pidCompute speedGains a.speedPID (a.targetSpeed - currentSpeed) deltaTime
  ((r.1 + 1) / 2, r.2)

/-- The PID output is always clamped into [outputMin, outputMax]. -/
theorem pidCompute_clamp (g : PIDGains) (s : PIDState) (e dt : ℚ)
    (h : g.outputMin ≤ g.outputMax) :
    g.outputMin ≤ (pidCompute g s e dt).1 ∧ (pidCompute g s e dt).1 ≤ g.outputMax := by
  simp only [pidCompute]
  exact ⟨le_max_left _ _, max_le h (min_le_left _ _)⟩

/-- C6: heading error uses shortest-path wraparound: the raw difference gets
360 added or subtracted once when outside [-180,180]; with current heading
359 and target 1 the error is +2, and controlHeading feeds exactly that
error to the heading PID. -/
theorem C6_heading_wraparound :
    (∀ t c : ℚ, 180 < t - c → headingError t c = t - c - 360) ∧
    (∀ t c : ℚ, t - c < -180 → headingError t c = t - c + 360) ∧
    (∀ t c : ℚ, -180 ≤ t - c → t - c ≤ 180 → headingError t c = t - c) ∧
    headingError 1 359 = 2 ∧
    (∀ a : APState, ∀ dt : ℚ, a.targetHeading = 1 →
      controlHeading a 359 dt = pidCompute headingGains a.headingPID 2 dt) := by
  refine ⟨?_, ?_, ?_, ?_, ?_⟩
  · intro t c h
    simp only [headingError]
    rw [if_pos h, if_neg (show ¬ t - c - 360 < -180 by linarith)]
  · intro t c h
    simp only [headingError]
    rw [if_neg (show ¬ t - c > 180 by linarith), if_pos h]
  · intro t c h1 h2
    simp only [headingError]
    rw [if_neg (show ¬ t - c > 180 by linarith),
      if_neg (show ¬ t - c < -180 by linarith)]
  · norm_num [headingError]
  · intro a dt h
    simp only [controlHeading, h]
    norm_num [headingError]

/-- Witness for C6 at concrete raw differences +200, -200 and +30. -/
theorem C6_heading_wraparound_witness :
    (180 < (200 : ℚ) - 0 ∧ headingError 200 0 = 200 - 0 - 360) ∧
    ((0 : ℚ) - 200 < -180 ∧ headingError 0 200 = 0 - 200 + 360) ∧
    (-180 ≤ (50 : ℚ) - 20 ∧ (50 : ℚ) - 20 ≤ 180 ∧ headingError 50 20 = 50 - 20) :=
  ⟨⟨by norm_num, C6_heading_wraparound.1 200 0 (by norm_num)⟩,
    ⟨by norm_num, C6_heading_wraparound.2.1 0 200 (by norm_num)⟩,
    ⟨by norm_num, by norm_num,
      C6_heading_wraparound.2.2.1 50 20 (by norm_num) (by norm_num)⟩⟩

/-- C7: a mode transition fully resets PID state: after setMode with a mode
different from the current one, the next compute on each of the three PID
controllers returns exactly what a freshly constructed PID with the same
gains and limits would return on the same (e, dt). -/
theorem C7_pid_reset_on_mode_change (a : APState) (mode : APMode) (e dt : ℚ)
    (h : mode ≠ a.mode) :
    pidCompute headingGains (setMode a mode).headingPID e dt =
        pidCompute headingGains pidInit e dt ∧
      pidCompute altitudeGains (setMode a mode).altitudePID e dt =
        pidCompute altitudeGains pidInit e dt ∧
      pidCompute speedGains (setMode a mode).speedPID e dt =
        pidCompute speedGains pidInit e dt := by
  have hm : a.mode ≠ mode := fun hh => h hh.symm
  have hset : setMode a mode =
      { a with
        mode := mode
        headingPID := pidInit
        altitudePID := pidInit
        speedPID := pidInit } := by
    simp [setMode, hm]
  rw [hset]
  exact ⟨rfl, rfl, rfl⟩

/-- An autopilot state with residual PID memory, used by the C7 witness. -/
def apDirty : APState :=
  { apInit with
    headingPID := ⟨5, 3⟩
    altitudePID := ⟨7, 1⟩
    speedPID := ⟨2, 9⟩ }

/-- Witness for C7: dirty PID states (nonzero integral and previous error)
are discarded on the OFF to FULL transition. -/
theorem C7_pid_reset_on_mode_change_witness :
    APMode.full ≠ apDirty.mode ∧
      pidCompute headingGains (setMode apDirty APMode.full).headingPID 2 1 =
        pidCompute headingGains pidInit 2 1 ∧
      pidCompute altitudeGains (setMode apDirty APMode.full).altitudePID 2 1 =
        pidCompute altitudeGains pidInit 2 1 ∧
      pidCompute speedGains (setMode apDirty APMode.full).speedPID 2 1 =
        pidCompute speedGains pidInit 2 1 :=
  ⟨by decide, C7_pid_reset_on_mode_change apDirty APMode.full 2 1 (by decide)⟩

/-- C10: in FULL mode the throttle written back by the autopilot is in
[0,1]: the speed PID clamps its output to [-1,1] for every state and dt > 0,
and controlSpeed maps it through (output + 1) / 2 into [0,1]. -/
theorem C10_controlSpeed_throttle_range (a : APState) (currentSpeed dt : ℚ)
    (hdt : 0 < dt) :
    -1 ≤ (pidCompute speedGains a.speedPID (a.targetSpeed - currentSpeed) dt).1 ∧
      (pidCompute speedGains a.speedPID (a.targetSpeed - currentSpeed) dt).1 ≤ 1 ∧
      0 ≤ (controlSpeed a currentSpeed dt).1 ∧
      (controlSpeed a currentSpeed dt).1 ≤ 1 := by
  have hc := pidCompute_clamp speedGains a.speedPID (a.targetSpeed - currentSpeed) dt
    (by norm_num [speedGains])
  have hmin : speedGains.outputMin = -1 := rfl
  have hmax : speedGains.outputMax = 1 := rfl
  rw [hmin, hmax] at hc
  refine ⟨hc.1, hc.2, ?_, ?_⟩ <;>
    · simp only [controlSpeed]
      rcases hc with ⟨h1, h2⟩
      linarith

/-- Witness for C10 at the constructor state, current speed 50 knots and
dt = 1. -/
theorem C10_controlSpeed_throttle_range_witness :
    (0 : ℚ) < 1 ∧
      (-1 ≤ (pidCompute speedGains apInit.speedPID (apInit.targetSpeed - 50) 1).1 ∧
        (pidCompute speedGains apInit.speedPID (apInit.targetSpeed - 50) 1).1 ≤ 1 ∧
        0 ≤ (controlSpeed apInit 50 1).1 ∧
        (controlSpeed apInit 50 1).1 ≤ 1) :=
  ⟨by norm_num, C10_controlSpeed_throttle_range apInit 50 1 (by norm_num)⟩

/-! ## PropellerEngine (src/physics/engine/PropellerEngine.ts) -/

/-- Per-blade mutable state (PropellerBlade.state). -/
structure BladeState where
  angle : ℚ
  pitch : ℚ
deriving DecidableEq, Repr

/-- A propeller blade record, from the PropellerBlade interface of types.ts. -/
structure PropellerBlade where
  area : ℚ
  kCl : ℚ
  ClZero : ℚ
  kCd : ℚ
  CdMin : ℚ
  minCdAOA : ℚ
  minPitch : ℚ
  maxPitch : ℚ
  kGoverner : ℚ
  gravityCenter : ℚ
  liftCenter : ℚ
  weight : ℚ
  clockwise : Bool
  state : BladeState
  lift : Vec3
  drag : Vec3
  torque : ℚ
  aoa : ℚ
deriving DecidableEq, Repr

/-- Engine characteristics record, from the EngineCharacteristics interface;
optional TypeScript fields become Option, the optional blade array becomes a
list (absent and empty collapse to [], exactly the disjunction the source
tests). -/
structure EngineChar where
  maxThrust : ℚ
  maxRPM : ℚ
  currentRPM : ℚ
  throttle : ℚ
  engineBrakeZeroThrottleRpm : ℚ
  engineBrakeMaxThrottleRpm : ℚ
  engineBrakeTorquePerRpm : ℚ
  maxPowerJoulesPerSec : Option ℚ
  idlePowerJoulesPerSec : Option ℚ
  propellerBlades : List PropellerBlade
  radianPerSec : Option ℚ
  ctlRadianPerSecMin : Option ℚ
  ctlRadianPerSecMax : Option ℚ
  propLeverPosition : Option ℚ
deriving DecidableEq, Repr

/-- PropellerEngine.rotateVectorXY. -/
def rotateVectorXY (m : MathOps) (v : Vec3) (angle : ℚ) : Vec3 :=
  ⟨v.x * m.cos angle - v.y * m.sin angle, v.x * m.sin angle + v.y * m.cos angle, v.z⟩

/-- PropellerEngine.rotateVectorZY (the y component reads the old z and y). -/
def rotateVectorZY (m : MathOps) (v : Vec3) (angle : ℚ) : Vec3 :=
  ⟨v.x, v.z * m.sin angle + v.y * m.cos angle, v.z * m.cos angle - v.y * m.sin angle⟩

/-- One iteration of the blade loop of calculateBladeForcesAndTorque: angle
normalisation, local airflow, angle of attack, coefficient curves, lift/drag
vectors and the blade torque. -/
def bladeStep (m : MathOps) (airDensity : ℚ) (relVel : Vec3) (omega : ℚ)
    (b : PropellerBlade) : PropellerBlade :=
  let angle0 := b.state.angle
  let angle := if angle0 > m.pi * 2 then angle0 - m.pi * 2
    else if angle0 < 0 then angle0 + m.pi * 2 else angle0
  let propSpeed := b.liftCenter * omega
  let directionOfRotation : ℚ := if b.clockwise then -1 else 1
  let propVel := rotateVectorXY m ⟨0, propSpeed * directionOfRotation, 0⟩ angle
  let totalVel : Vec3 := ⟨propVel.x + relVel.x, propVel.y + relVel.y, propVel.z + relVel.z⟩
  let relVelBlade := rotateVectorXY m totalVel (-angle)
  let aoa := b.state.pitch - m.atan2 relVelBlade.z (-relVelBlade.y)
  let cl := b.kCl * aoa + b.ClZero
  let cd := b.kCd * (aoa - b.minCdAOA) ^ 2 + b.CdMin
  let vSquared := relVelBlade.x * relVelBlade.x + relVelBlade.y * relVelBlade.y +
    relVelBlade.z * relVelBlade.z
  let liftMagnitude := 0.5 * cl * airDensity * vSquared * b.area
  let dragMagnitude := 0.5 * cd * airDensity * vSquared * b.area
  let totalVelMagnitude := m.sqrt vSquared
  let drag : Vec3 :=
    if totalVelMagnitude > 0.001 then
      ⟨-dragMagnitude * totalVel.x / totalVelMagnitude,
        -dragMagnitude * totalVel.y / totalVelMagnitude,
        -dragMagnitude * totalVel.z / totalVelMagnitude⟩
    else ⟨0, 0, 0⟩
  let lift0 := rotateVectorXY m (rotateVectorZY m relVelBlade (m.pi / 2)) angle
  let liftMag := m.sqrt (lift0.x * lift0.x + lift0.y * lift0.y + lift0.z * lift0.z)
  let lift : Vec3 :=
    if liftMag > 0.001 then
      ⟨liftMagnitude * lift0.x / liftMag, liftMagnitude * lift0.y / liftMag,
        liftMagnitude * lift0.z / liftMag⟩
    else ⟨0, 0, 0⟩
  let forceCenter : Vec3 := ⟨b.liftCenter * m.cos angle, b.liftCenter * m.sin angle, 0⟩
  let forceXY : Vec3 := ⟨lift.x + drag.x, lift.y + drag.y, 0⟩
  let torqueZ := forceCenter.x * forceXY.y - forceCenter.y * forceXY.x
  let bladeDirection : ℚ := if b.clockwise then -1 else 1
  { b with
    state := { b.state with angle := angle }
    aoa := aoa
    lift := lift
    drag := drag
    torque := torqueZ * bladeDirection }

/-- The blade loop applied to the whole blade list (radianPerSec is read but
never written inside the loop, so its value omega is a loop constant). -/
def bladeLoop (m : MathOps) (airDensity : ℚ) (relVel : Vec3) (omega : ℚ)
    (blades : List PropellerBlade) : List PropellerBlade :=
  blades.map (bladeStep m airDensity relVel omega)

/-- Accumulated totalTorque of the blade loop. -/
def totalTorqueOf (blades : List PropellerBlade) : ℚ :=
  (blades.map fun b => b.torque).sum

/-- Accumulated totalMomentOfInertia of the blade loop. -/
def totalInertiaOf (blades : List PropellerBlade) : ℚ :=
  (blades.map fun b => b.weight * b.gravityCenter * b.gravityCenter).sum

/-- The near-zero-inertia guard: below 0.000001 the torque is zeroed and the
inertia floored to 1.0. -/
def floorInertia (tq ti : ℚ) : ℚ × ℚ :=
  if ti < 0.000001 then (0, 1) else (tq, ti)

/-- The engine-brake torque adjustment of calculateBladeForcesAndTorque. -/
def applyEngineBrake (m : MathOps) (e : EngineChar) (rps0 tq : ℚ) : ℚ :=
  if e.engineBrakeTorquePerRpm > 0.000001 then
    let rpm := |rps0 * 30 / m.pi|
    let engineBrakeRpm0 := e.engineBrakeZeroThrottleRpm +
      (e.engineBrakeMaxThrottleRpm - e.engineBrakeZeroThrottleRpm) * e.throttle
    if engineBrakeRpm0 < rpm then
      let engineBrakeTorque := e.engineBrakeTorquePerRpm * (rpm - engineBrakeRpm0)
      if rps0 > 0 then tq - engineBrakeTorque else tq + engineBrakeTorque
    else tq
  else tq

/-- The energy-based inversion at the end of calculateBladeForcesAndTorque:
signed kinetic energy is updated by the throttle-interpolated power and
converted back to an angular rate by a sign-preserving square root. -/
def energyRps (m : MathOps) (ti joulePerSec dt r1 : ℚ) : ℚ :=
  let currentEnergy := 0.5 * ti * r1 * r1
  let sign : ℚ := if r1 > 0 then 1 else -1
  let newEnergy := currentEnergy + sign * joulePerSec * dt
  if 0 ≤ newEnergy then sign * m.sqrt (2 * newEnergy / ti)
  else -sign * m.sqrt (2 * |newEnergy| / ti)

/-- PropellerEngine.calculateBladeForcesAndTorque as a state transformer on
the engine characteristics. -/
def calcBlade (m : MathOps) (dt airDensity : ℚ) (relVel : Vec3)
    (e : EngineChar) : EngineChar :=
  if e.propellerBlades = [] then e
  else
    let rps0 := e.radianPerSec.getD 0
    let blades1 := bladeLoop m airDensity relVel rps0 e.propellerBlades
    let p := floorInertia (totalTorqueOf blades1) (totalInertiaOf blades1)
    let tq2 := applyEngineBrake m e rps0 p.1
    let angularAccel := tq2 / p.2
    let newRps : Option ℚ :=
      match e.radianPerSec with
      | some r =>
        let r1 := r + angularAccel * dt
        match e.maxPowerJoulesPerSec, e.idlePowerJoulesPerSec with
        | some maxP, some idleP =>
          let airDensityBias := airDensity / 1.225
          let joulePerSec := (idleP * (1 - e.throttle) + maxP * e.throttle) * airDensityBias
          some (energyRps m p.2 joulePerSec dt r1)
        | _, _ => some r1
      | none => some 0
    let blades2 := blades1.map fun b =>
      { b with state := { b.state with angle := b.state.angle + newRps.getD 0 * dt } }
    { e with
      propellerBlades := blades2
      radianPerSec := newRps }

/-- PropellerEngine.controlPropellerPitch: governor nudging each blade pitch
toward the lever-derived target rate, clamped to [minPitch, maxPitch]. -/
def controlPitch (e : EngineChar) (dt : ℚ) : EngineChar :=
  match e.propLeverPosition, e.ctlRadianPerSecMin, e.ctlRadianPerSecMax, e.radianPerSec with
  | some lever, some ctlMin, some ctlMax, some rps =>
    if e.propellerBlades = [] then e
    else
      let desired := ctlMin * (1 - lever) + ctlMax * lever
      let speedDiff := rps - desired
      { e with
        propellerBlades := e.propellerBlades.map fun b =>
          let pitch1 := b.state.pitch + b.kGoverner * speedDiff * dt
          let pitch2 := if pitch1 < b.minPitch then b.minPitch
            else if pitch1 > b.maxPitch then b.maxPitch else pitch1
          { b with state := { b.state with pitch := pitch2 } } }
  | _, _, _, _ => e

/-- PropellerEngine.updateSimpleRPM: exponential approach to
maxRPM * throttle with an engine-brake branch above the braking RPM. -/
def updateSimpleRPM (e : EngineChar) (dt : ℚ) : EngineChar :=
  let targetRPM := e.maxRPM * e.throttle
  let currentRPM := e.currentRPM
  if currentRPM > e.engineBrakeZeroThrottleRpm then
    let brakingRPM := (currentRPM - e.engineBrakeZeroThrottleRpm) *
      e.engineBrakeTorquePerRpm * dt
    { e with currentRPM := max targetRPM (currentRPM - brakingRPM) }
  else
    { e with currentRPM := currentRPM + (targetRPM - currentRPM) * dt * 2 }

/-- PropellerEngine.update: blade-element path when blades are present and
radianPerSec is defined (then currentRPM is recomputed from the angular
rate), simple path otherwise. -/
def engineUpdate (m : MathOps) (dt airDensity : ℚ) (relVel : Vec3)
    (e : EngineChar) : EngineChar :=
  if e.propellerBlades ≠ [] ∧ e.radianPerSec.isSome then
    let e1 := controlPitch (calcBlade m dt airDensity relVel e) dt
    { e1 with currentRPM := |e1.radianPerSec.getD 0 * 60 / (m.pi * 2)| }
  else updateSimpleRPM e dt

/-- PropellerEngine.getThrust. -/
def getThrust (e : EngineChar) : ℚ :=
  if e.propellerBlades = [] then e.maxThrust * e.throttle
  else (e.propellerBlades.map fun b => b.lift.z + b.drag.z).sum

/-- PropellerEngine.setThrottle: clamps to [0,1]. -/
def engineSetThrottle (e : EngineChar) (value : ℚ) : EngineChar :=
  { e with throttle := max 0 (min 1 value) }

/-- PropellerEngine.getCurrentRPM. -/
def getCurrentRPM (e : EngineChar) : ℚ := e.currentRPM

/-- One default blade of PropellerEngine (index i enters only the initial
angle PI * i). -/
def mkBlade (m : MathOps) (i : ℚ) : PropellerBlade :=
  { area := 0.25
    kCl := 1.4 / (20 * m.pi / 180)
    ClZero := 0.35
    kCd := 0.213 / (25 * m.pi / 180) ^ 2
    CdMin := 0.012
    minCdAOA := -5 * m.pi / 180
    minPitch := m.pi / 36
    maxPitch := m.pi / 4
    kGoverner := 0.05
    gravityCenter := 0.6
    liftCenter := 0.6
    weight := 10
    clockwise := true
    state := ⟨m.pi * i, 18 * m.pi / 180⟩
    lift := ⟨0, 0, 0⟩
    drag := ⟨0, 0, 0⟩
    torque := 0
    aoa := 0 }

/-- The two-blade default propeller built by the constructor when the
characteristics carry no blades. -/
def defaultBlades (m : MathOps) : List PropellerBlade :=
  [mkBlade m 0, mkBlade m 1]

/-- The PropellerEngine constructor: copies the characteristics and fills in
the default blades when none are present. -/
def mkPropellerEngine (m : MathOps) (c : EngineChar) : EngineChar :=
  if c.propellerBlades = [] then { c with propellerBlades := defaultBlades m } else c

/-- External operations on a PropellerEngine: an update tick or a throttle
setting. -/
inductive EngineOp where
  | upd (dt airDensity : ℚ) (relVel : Vec3)
  | thr (value : ℚ)
deriving DecidableEq, Repr

/-- Whether an operation is an update tick. -/
def isUpd : EngineOp → Bool
  | .upd _ _ _ => true
  | .thr _ => false

/-- Apply one engine operation. -/
def applyEngineOp (m : MathOps) (e : EngineChar) : EngineOp → EngineChar
  | .upd dt airDensity relVel => engineUpdate m dt airDensity relVel e
  | .thr value => engineSetThrottle e value

/-- Apply a sequence of engine operations in order. -/
def applyEngineOps (m : MathOps) (e : EngineChar) (ops : List EngineOp) : EngineChar :=
  ops.foldl (applyEngineOp m) e

/-- Blade-element mode: blades present and radianPerSec defined, the
condition tested at the top of PropellerEngine.update. -/
def bladeMode (e : EngineChar) : Prop :=
  e.propellerBlades ≠ [] ∧ e.radianPerSec.isSome

/-- The blade-mode RPM invariant: the reported RPM is the absolute value of
radianPerSec * 60 / (2 pi). -/
def rpmFromRps (m : MathOps) (e : EngineChar) : Prop :=
  getCurrentRPM e = |e.radianPerSec.getD 0 * 60 / (m.pi * 2)|

theorem calcBlade_some (m : MathOps) (dt airDensity : ℚ) (relVel : Vec3)
    (e : EngineChar) (hb : e.propellerBlades ≠ []) :
    (calcBlade m dt airDensity relVel e).propellerBlades ≠ [] ∧
      (calcBlade m dt airDensity relVel e).radianPerSec.isSome := by
  simp only [calcBlade, if_neg hb]
  constructor
  · simpa [bladeLoop] using hb
  · rcases hr : e.radianPerSec with _ | r
    · simp [hr]
    · rcases hp : e.maxPowerJoulesPerSec with _ | maxP <;>
        rcases hq : e.idlePowerJoulesPerSec with _ | idleP <;> simp [hr, hp, hq]

theorem controlPitch_proj (e : EngineChar) (dt : ℚ) :
    (controlPitch e dt).radianPerSec = e.radianPerSec ∧
      ((controlPitch e dt).propellerBlades = [] ↔ e.propellerBlades = []) ∧
      (controlPitch e dt).currentRPM = e.currentRPM := by
  rcases hl : e.propLeverPosition with _ | lever <;>
    rcases hmin : e.ctlRadianPerSecMin with _ | ctlMin <;>
      rcases hmax : e.ctlRadianPerSecMax with _ | ctlMax <;>
        rcases hr : e.radianPerSec with _ | rps <;>
          simp only [controlPitch, hl, hmin, hmax, hr] <;>
          by_cases hb : e.propellerBlades = [] <;> simp [hb, hr]

theorem engineUpdate_blade_eq (m : MathOps) (dt airDensity : ℚ) (relVel : Vec3)
    (e : EngineChar) (h1 : e.propellerBlades ≠ []) (h2 : e.radianPerSec.isSome) :
    engineUpdate m dt airDensity relVel e =
      { controlPitch (calcBlade m dt airDensity relVel e) dt with
        currentRPM :=
          |(controlPitch (calcBlade m dt airDensity relVel e) dt).radianPerSec.getD 0 *
            60 / (m.pi * 2)| } := by
  simp only [engineUpdate, if_pos (And.intro h1 h2)]

/-- One blade-mode update preserves blade mode and establishes the RPM
invariant. -/
theorem engineUpdate_step (m : MathOps) (dt airDensity : ℚ) (relVel : Vec3)
    (e : EngineChar) (h : bladeMode e) :
    bladeMode (engineUpdate m dt airDensity relVel e) ∧
      rpmFromRps m (engineUpdate m dt airDensity relVel e) := by
  obtain ⟨h1, h2⟩ := h
  have hcb := calcBlade_some m dt airDensity relVel e h1
  have hcp := controlPitch_proj (calcBlade m dt airDensity relVel e) dt
  rw [engineUpdate_blade_eq m dt airDensity relVel e h1 h2]
  refine ⟨⟨?_, ?_⟩, ?_⟩
  · exact fun hnil => hcb.1 (hcp.2.1.mp hnil)
  · show (controlPitch (calcBlade m dt airDensity relVel e) dt).radianPerSec.isSome
    rw [hcp.1]; exact hcb.2
  · show |(controlPitch (calcBlade m dt airDensity relVel e) dt).radianPerSec.getD 0 *
        60 / (m.pi * 2)| = _
    rfl

/-- Setting the throttle touches neither the blades, the angular rate, nor
the reported RPM. -/
theorem engineSetThrottle_preserve (m : MathOps) (e : EngineChar) (x : ℚ) :
    (bladeMode (engineSetThrottle e x) ↔ bladeMode e) ∧
      (rpmFromRps m (engineSetThrottle e x) ↔ rpmFromRps m e) := by
  unfold bladeMode rpmFromRps getCurrentRPM engineSetThrottle
  simp

/-- Blade mode together with the RPM invariant is preserved by every
operation. -/
theorem applyEngineOps_inv (m : MathOps) (ops : List EngineOp) :
    ∀ e : EngineChar, bladeMode e → rpmFromRps m e →
      bladeMode (applyEngineOps m e ops) ∧ rpmFromRps m (applyEngineOps m e ops) := by
  induction ops with
  | nil => exact fun e h1 h2 => ⟨h1, h2⟩
  | cons op rest ih =>
    intro e h1 h2
    rcases op with ⟨dt, airDensity, relVel⟩ | ⟨x⟩
    · have hstep := engineUpdate_step m dt airDensity relVel e h1
      exact ih _ hstep.1 hstep.2
    · have hp := engineSetThrottle_preserve m e x
      exact ih _ (hp.1.mpr h1) (hp.2.mpr h2)

/-- Any sequence of operations that contains at least one update establishes
the RPM invariant in blade mode. -/
theorem applyEngineOps_estab (m : MathOps) (ops : List EngineOp) :
    ∀ e : EngineChar, bladeMode e → (∃ op ∈ ops, isUpd op = true) →
      bladeMode (applyEngineOps m e ops) ∧ rpmFromRps m (applyEngineOps m e ops) := by
  induction ops with
  | nil => intro e _ h; simp at h
  | cons op rest ih =>
    intro e h1 hupd
    rcases op with ⟨dt, airDensity, relVel⟩ | ⟨x⟩
    · have hstep := engineUpdate_step m dt airDensity relVel e h1
      exact applyEngineOps_inv m rest _ hstep.1 hstep.2
    · have hp := engineSetThrottle_preserve m e x
      have hrest : ∃ op ∈ rest, isUpd op = true := by
        rcases hupd with ⟨op, hmem, hop⟩
        rcases List.mem_cons.mp hmem with heq | hmem2
        · rw [heq] at hop; simp [isUpd] at hop
        · exact ⟨op, hmem2, hop⟩
      exact ih _ (hp.1.mpr h1) hrest

/-- C5 (amended): in blade-element mode, after any sequence of update and
setThrottle operations containing at least one update, getCurrentRPM returns
abs(radianPerSec * 60 / (2 pi)), which is never negative, and the engine
stays in blade-element mode.  (The all-modes claim fails: in simple mode a
large dt makes the RPM overshoot below zero, see the counterexample.) -/
theorem C5_bladeMode_rpm_nonneg (m : MathOps) (e : EngineChar)
    (ops : List EngineOp) (hmode : bladeMode e)
    (hupd : ∃ op ∈ ops, isUpd op = true) :
    bladeMode (applyEngineOps m e ops) ∧
      getCurrentRPM (applyEngineOps m e ops) =
        |(applyEngineOps m e ops).radianPerSec.getD 0 * 60 / (m.pi * 2)| ∧
      0 ≤ getCurrentRPM (applyEngineOps m e ops) := by
  have h := applyEngineOps_estab m ops e hmode hupd
  refine ⟨h.1, h.2, ?_⟩
  have h2 := h.2
  unfold rpmFromRps at h2
  rw [h2]
  exact abs_nonneg _

/-- A blade-mode engine state used by the C5 witness. -/
def engWitness : EngineChar :=
  { maxThrust := 20000
    maxRPM := 2400
    currentRPM := 0
    throttle := 0
    engineBrakeZeroThrottleRpm := 700
    engineBrakeMaxThrottleRpm := 3000
    engineBrakeTorquePerRpm := 0.1
    maxPowerJoulesPerSec := some 120000
    idlePowerJoulesPerSec := some 12000
    propellerBlades := defaultBlades mathZero
    radianPerSec := some 0
    ctlRadianPerSecMin := some 50
    ctlRadianPerSecMax := some 300
    propLeverPosition := some 0.7 }

/-- Witness for C5: a throttle change followed by one update tick on a
blade-mode engine. -/
theorem C5_bladeMode_rpm_nonneg_witness :
    bladeMode (applyEngineOps mathZero engWitness
        [EngineOp.thr 0.8, EngineOp.upd 1 1.225 ⟨50, 0, 0⟩]) ∧
      getCurrentRPM (applyEngineOps mathZero engWitness
          [EngineOp.thr 0.8, EngineOp.upd 1 1.225 ⟨50, 0, 0⟩]) =
        |(applyEngineOps mathZero engWitness
            [EngineOp.thr 0.8, EngineOp.upd 1 1.225 ⟨50, 0, 0⟩]).radianPerSec.getD 0 *
          60 / (mathZero.pi * 2)| ∧
      0 ≤ getCurrentRPM (applyEngineOps mathZero engWitness
        [EngineOp.thr 0.8, EngineOp.upd 1 1.225 ⟨50, 0, 0⟩]) :=
  C5_bladeMode_rpm_nonneg mathZero engWitness
    [EngineOp.thr 0.8, EngineOp.upd 1 1.225 ⟨50, 0, 0⟩]
    ⟨by simp [engWitness, defaultBlades], rfl⟩ (by decide)

/-- Engine characteristics without blade data and with radianPerSec left
undefined: the constructor fills in blades, but the engine still runs in
simple mode, starting from 600 RPM with throttle 0. -/
def simpleChar : EngineChar :=
  { maxThrust := 20000
    maxRPM := 2400
    currentRPM := 600
    throttle := 0
    engineBrakeZeroThrottleRpm := 700
    engineBrakeMaxThrottleRpm := 3000
    engineBrakeTorquePerRpm := 0.1
    maxPowerJoulesPerSec := none
    idlePowerJoulesPerSec := none
    propellerBlades := []
    radianPerSec := none
    ctlRadianPerSecMin := none
    ctlRadianPerSecMax := none
    propLeverPosition := none }

/-- C5 counterexample: in simple mode (radianPerSec undefined), one update
with dt = 1 drives the RPM from 600 to -600, so getCurrentRPM is negative:
the claimed non-negativity does not hold in all modes. -/
theorem C5_simpleMode_negative_rpm :
    getCurrentRPM (engineUpdate mathZero 1 1.225 ⟨0, 0, 0⟩
        (mkPropellerEngine mathZero simpleChar)) = -600 ∧
      ¬ 0 ≤ getCurrentRPM (engineUpdate mathZero 1 1.225 ⟨0, 0, 0⟩
        (mkPropellerEngine mathZero simpleChar)) := by
  norm_num [mkPropellerEngine, simpleChar, engineUpdate, updateSimpleRPM,
    getCurrentRPM, defaultBlades, mkBlade, mathZero]

/-! Named intermediate quantities of calculateBladeForcesAndTorque, used to
state the energy-update claim; calcBlade computes exactly these. -/

/-- Torque and moment of inertia accumulated by the blade loop, after the
near-zero floor. -/
def flooredPair (m : MathOps) (airDensity : ℚ) (relVel : Vec3) (rps0 : ℚ)
    (blades : List PropellerBlade) : ℚ × ℚ :=
  let blades1 := bladeLoop m airDensity relVel rps0 blades
  floorInertia (totalTorqueOf blades1) (totalInertiaOf blades1)

/-- The angular rate right after the torque integration step
(radianPerSec += angularAccel * dt). -/
def r1Of (m : MathOps) (dt airDensity : ℚ) (relVel : Vec3) (e : EngineChar)
    (r : ℚ) : ℚ :=
  r + applyEngineBrake m e r (flooredPair m airDensity relVel r e.propellerBlades).1 /
    (flooredPair m airDensity relVel r e.propellerBlades).2 * dt

/-- The throttle-interpolated engine power, scaled by the density ratio. -/
def jpsOf (e : EngineChar) (airDensity maxP idleP : ℚ) : ℚ :=
  (idleP * (1 - e.throttle) + maxP * e.throttle) * (airDensity / 1.225)

/-- The floored moment of inertia used as the divisor. -/
def c9Ti (m : MathOps) (airDensity : ℚ) (relVel : Vec3) (e : EngineChar)
    (r : ℚ) : ℚ :=
  (flooredPair m airDensity relVel r e.propellerBlades).2

/-- The sign factor of the energy update. -/
def c9Sign (m : MathOps) (dt airDensity : ℚ) (relVel : Vec3) (e : EngineChar)
    (r : ℚ) : ℚ :=
  if r1Of m dt airDensity relVel e r > 0 then 1 else -1

/-- The updated signed kinetic energy. -/
def c9NewEnergy (m : MathOps) (dt airDensity : ℚ) (relVel : Vec3)
    (e : EngineChar) (r maxP idleP : ℚ) : ℚ :=
  0.5 * c9Ti m airDensity relVel e r * r1Of m dt airDensity relVel e r *
      r1Of m dt airDensity relVel e r +
    c9Sign m dt airDensity relVel e r * jpsOf e airDensity maxP idleP * dt

/-- In blade mode with both power fields present, the new radianPerSec is the
energy-based inversion applied to the named intermediate quantities. -/
theorem calcBlade_rps_energy (m : MathOps) (dt airDensity : ℚ) (relVel : Vec3)
    (e : EngineChar) (r maxP idleP : ℚ) (hb : e.propellerBlades ≠ [])
    (hr : e.radianPerSec = some r) (hp : e.maxPowerJoulesPerSec = some maxP)
    (hq : e.idlePowerJoulesPerSec = some idleP) :
    (calcBlade m dt airDensity relVel e).radianPerSec =
      some (energyRps m (c9Ti m airDensity relVel e r)
        (jpsOf e airDensity maxP idleP) dt (r1Of m dt airDensity relVel e r)) := by
  simp only [calcBlade, if_neg hb, hr, hp, hq, Option.getD_some,
    c9Ti, r1Of, jpsOf, flooredPair]

/-- C9 (amended): the energy-based RPM update preserves sign and stays real:
with the floored moment of inertia I (positive, at least 0.000001 - not
necessarily at least 1), if the updated signed kinetic energy newEnergy is
nonnegative then radianPerSec becomes sign * sqrt(2 * newEnergy / I), and if
it is negative it becomes -sign * sqrt(2 * abs newEnergy / I); in both
branches the square-root argument is nonnegative, for every engine state in
blade mode, dt >= 0 and airDensity >= 0. -/
theorem C9_energy_sign_sqrt (m : MathOps) (dt airDensity : ℚ) (relVel : Vec3)
    (e : EngineChar) (r maxP idleP : ℚ) (hdt : 0 ≤ dt) (hden : 0 ≤ airDensity)
    (hb : e.propellerBlades ≠ []) (hr : e.radianPerSec = some r)
    (hp : e.maxPowerJoulesPerSec = some maxP)
    (hq : e.idlePowerJoulesPerSec = some idleP) :
    0 < c9Ti m airDensity relVel e r ∧
      (0 ≤ c9NewEnergy m dt airDensity relVel e r maxP idleP →
        (calcBlade m dt airDensity relVel e).radianPerSec =
            some (c9Sign m dt airDensity relVel e r *
              m.sqrt (2 * c9NewEnergy m dt airDensity relVel e r maxP idleP /
                c9Ti m airDensity relVel e r)) ∧
          0 ≤ 2 * c9NewEnergy m dt airDensity relVel e r maxP idleP /
            c9Ti m airDensity relVel e r) ∧
      (c9NewEnergy m dt airDensity relVel e r maxP idleP < 0 →
        (calcBlade m dt airDensity relVel e).radianPerSec =
            some (-c9Sign m dt airDensity relVel e r *
              m.sqrt (2 * |c9NewEnergy m dt airDensity relVel e r maxP idleP| /
                c9Ti m airDensity relVel e r)) ∧
          0 ≤ 2 * |c9NewEnergy m dt airDensity relVel e r maxP idleP| /
            c9Ti m airDensity relVel e r) := by
  have hti : 0 < c9Ti m airDensity relVel e r := by
    unfold c9Ti flooredPair
    by_cases h : totalInertiaOf (bladeLoop m airDensity relVel r e.propellerBlades) <
      0.000001
    · simp only [floorInertia, if_pos h]
      norm_num
    · simp only [floorInertia, if_neg h]
      push_neg at h
      nlinarith [h]
  have hval := calcBlade_rps_energy m dt airDensity relVel e r maxP idleP hb hr hp hq
  have he : energyRps m (c9Ti m airDensity relVel e r)
      (jpsOf e airDensity maxP idleP) dt (r1Of m dt airDensity relVel e r) =
      if 0 ≤ c9NewEnergy m dt airDensity relVel e r maxP idleP then
        c9Sign m dt airDensity relVel e r *
          m.sqrt (2 * c9NewEnergy m dt airDensity relVel e r maxP idleP /
            c9Ti m airDensity relVel e r)
      else
        -c9Sign m dt airDensity relVel e r *
          m.sqrt (2 * |c9NewEnergy m dt airDensity relVel e r maxP idleP| /
            c9Ti m airDensity relVel e r) := by
    unfold energyRps c9NewEnergy c9Sign
    rfl
  refine ⟨hti, ?_, ?_⟩
  · intro hE
    rw [hval, he, if_pos hE]
    exact ⟨rfl, div_nonneg (by linarith) hti.le⟩
  · intro hE
    rw [hval, he, if_neg (not_le.mpr hE)]
    exact ⟨rfl, div_nonneg (by positivity) hti.le⟩

/-- A concrete engine state in blade mode with both power fields present,
used by the C9 witness. -/
def engSample : EngineChar :=
  { maxThrust := 20000
    maxRPM := 2400
    currentRPM := 0
    throttle := 0.5
    engineBrakeZeroThrottleRpm := 700
    engineBrakeMaxThrottleRpm := 3000
    engineBrakeTorquePerRpm := 0.1
    maxPowerJoulesPerSec := some 120000
    idlePowerJoulesPerSec := some 12000
    propellerBlades := defaultBlades mathZero
    radianPerSec := some 10
    ctlRadianPerSecMin := some 50
    ctlRadianPerSecMax := some 300
    propLeverPosition := some 0.7 }

/-- Witness for C9 at the sample engine state, dt = 1, density 1.225. -/
theorem C9_energy_sign_sqrt_witness :
    (0 : ℚ) ≤ 1 ∧ (0 : ℚ) ≤ 1.225 ∧ engSample.propellerBlades ≠ [] ∧
      engSample.radianPerSec = some 10 ∧
      engSample.maxPowerJoulesPerSec = some 120000 ∧
      engSample.idlePowerJoulesPerSec = some 12000 ∧
      (0 < c9Ti mathZero 1.225 ⟨50, 0, 0⟩ engSample 10 ∧
        (0 ≤ c9NewEnergy mathZero 1 1.225 ⟨50, 0, 0⟩ engSample 10 120000 12000 →
          (calcBlade mathZero 1 1.225 ⟨50, 0, 0⟩ engSample).radianPerSec =
              some (c9Sign mathZero 1 1.225 ⟨50, 0, 0⟩ engSample 10 *
                mathZero.sqrt (2 * c9NewEnergy mathZero 1 1.225 ⟨50, 0, 0⟩
                    engSample 10 120000 12000 /
                  c9Ti mathZero 1.225 ⟨50, 0, 0⟩ engSample 10)) ∧
            0 ≤ 2 * c9NewEnergy mathZero 1 1.225 ⟨50, 0, 0⟩ engSample 10 120000 12000 /
              c9Ti mathZero 1.225 ⟨50, 0, 0⟩ engSample 10) ∧
        (c9NewEnergy mathZero 1 1.225 ⟨50, 0, 0⟩ engSample 10 120000 12000 < 0 →
          (calcBlade mathZero 1 1.225 ⟨50, 0, 0⟩ engSample).radianPerSec =
              some (-c9Sign mathZero 1 1.225 ⟨50, 0, 0⟩ engSample 10 *
                mathZero.sqrt (2 * |c9NewEnergy mathZero 1 1.225 ⟨50, 0, 0⟩
                    engSample 10 120000 12000| /
                  c9Ti mathZero 1.225 ⟨50, 0, 0⟩ engSample 10)) ∧
            0 ≤ 2 * |c9NewEnergy mathZero 1 1.225 ⟨50, 0, 0⟩ engSample 10 120000 12000| /
              c9Ti mathZero 1.225 ⟨50, 0, 0⟩ engSample 10)) :=
  ⟨by norm_num, by norm_num, by simp [engSample, defaultBlades], rfl, rfl, rfl,
    C9_energy_sign_sqrt mathZero 1 1.225 ⟨50, 0, 0⟩ engSample 10 120000 12000
      (by norm_num) (by norm_num) (by simp [engSample, defaultBlades]) rfl rfl rfl⟩

/-- A blade light enough that the accumulated moment of inertia stays below
1 while exceeding the 0.000001 floor threshold. -/
def tinyBlade : PropellerBlade :=
  { area := 0.1
    kCl := 4
    ClZero := 0.35
    kCd := 0.4
    CdMin := 0.012
    minCdAOA := -0.08
    minPitch := 0.08
    maxPitch := 0.8
    kGoverner := 0.05
    gravityCenter := 0.1
    liftCenter := 0.1
    weight := 0.01
    clockwise := true
    state := ⟨0, 0.3⟩
    lift := ⟨0, 0, 0⟩
    drag := ⟨0, 0, 0⟩
    torque := 0
    aoa := 0 }

/-- C9 counterexample: for a single light blade the floored moment of
inertia used as the square-root divisor is 1/10000, which is below 1: the
floor only guarantees positivity (threshold 0.000001), not I >= 1. -/
theorem C9_inertia_below_one :
    (flooredPair mathZero 1.225 ⟨0, 0, 0⟩ 10 [tinyBlade]).2 = 1 / 10000 ∧
      ¬ 1 ≤ (flooredPair mathZero 1.225 ⟨0, 0, 0⟩ 10 [tinyBlade]).2 := by
  norm_num [flooredPair, floorInertia, bladeLoop, bladeStep, totalTorqueOf,
    totalInertiaOf, tinyBlade, mathZero, rotateVectorXY, rotateVectorZY]

/-! ## Aircraft (componentised class of src/physics/types.ts) -/

/-- The Aircraft rigid-body state: position, attitude, velocity, angular
velocity, controls, and the owned engine characteristics. -/
structure AircraftState where
  position : Vec3
  rotation : Att
  velocity : Vec3
  angularVelocity : Att
  controls : Controls
  engine : EngineChar
deriving DecidableEq, Repr

/-- Aircraft mass (constructor constant, kg). -/
def aircraftMass : ℚ := 1000

/-- Aircraft per-axis inertia (constructor constant). -/
def aircraftInertia : Att := ⟨2000, 1500, 3000⟩

/-- Default gravity of the PhysicsEnvironment the Aircraft constructs. -/
def gravityAccel : ℚ := 9.81

/-- The merge performed by Aircraft.setControls: spread of the old controls
overridden by whatever fields the partial record carries; no clamping. -/
def setControls (c : Controls) (p : OptControls) : Controls :=
  { elevator := p.elevator.getD c.elevator
    aileron := p.aileron.getD c.aileron
    rudder := p.rudder.getD c.rudder
    flaps := p.flaps.getD c.flaps
    throttle := p.throttle.getD c.throttle }

/-- Aircraft.setControls on the full state. -/
def aircraftSetControls (s : AircraftState) (p : OptControls) : AircraftState :=
  { s with controls := setControls s.controls p }

/-- Aircraft.setThrottle: clamps to [0,1], forwards the clamped value to the
engine and stores it in the controls record. -/
def aircraftSetThrottle (s : AircraftState) (throttle : ℚ) : AircraftState :=
  let normalizedThrottle := max 0 (min 1 throttle)
  { s with
    engine := engineSetThrottle s.engine normalizedThrottle
    controls := { s.controls with throttle := normalizedThrottle } }

/-- Aircraft.calculateForces: engine update (which mutates the engine state,
returned alongside), aerodynamic forces, thrust along the body-forward axis
and gravity. -/
def aircraftForces (m : MathOps) (aero : Aerodynamics) (s : AircraftState)
    (dt : ℚ) : Vec3 × EngineChar :=
  let airDensity := getAirDensity s.position.y
  let e1 := engineUpdate m dt airDensity s.velocity s.engine
  let af := aeroForces m aero s.velocity s.rotation s.controls airDensity
  let thrust := getThrust e1
  let forwardVector : Vec3 :=
    ⟨m.cos s.rotation.yaw * m.cos s.rotation.pitch, m.sin s.rotation.pitch,
      m.sin s.rotation.yaw * m.cos s.rotation.pitch⟩
  let gravity := -gravityAccel * aircraftMass
  (⟨forwardVector.x * thrust + af.lift.x + af.drag.x,
    forwardVector.y * thrust + af.lift.y + af.drag.y + gravity,
    forwardVector.z * thrust + af.lift.z + af.drag.z⟩, e1)

/-- Aircraft.updateAngularVelocity, called after position and velocity have
already been advanced: control gains over per-axis inertia plus aerodynamic
moments, integrated and then damped by 0.95. -/
def newAngularVelocity (m : MathOps) (aero : Aerodynamics)
    (position velocity : Vec3) (rotation : Att) (controls : Controls)
    (w : Att) (dt : ℚ) : Att :=
  let airDensity := getAirDensity position.y
  let af := aeroForces m aero velocity rotation controls airDensity
  let angularAcceleration : Att :=
    ⟨controls.elevator * 2 / aircraftInertia.pitch + af.moments.pitch,
      controls.aileron * 3 / aircraftInertia.roll + af.moments.roll,
      controls.rudder * 1 / aircraftInertia.yaw + af.moments.yaw⟩
  ⟨(w.pitch + angularAcceleration.pitch * dt) * 0.95,
    (w.roll + angularAcceleration.roll * dt) * 0.95,
    (w.yaw + angularAcceleration.yaw * dt) * 0.95⟩

/-- Aircraft.update up to but not including the ground-contact clamp:
force computation, explicit-Euler integration of velocity then position,
angular-velocity update, attitude integration. -/
def aircraftUpdatePre (m : MathOps) (aero : Aerodynamics) (s : AircraftState)
    (dt : ℚ) : AircraftState :=
  let fe := aircraftForces m aero s dt
  let acceleration : Vec3 :=
    ⟨fe.1.x / aircraftMass, fe.1.y / aircraftMass, fe.1.z / aircraftMass⟩
  let velocity : Vec3 := ⟨s.velocity.x + acceleration.x * dt,
    s.velocity.y + acceleration.y * dt, s.velocity.z + acceleration.z * dt⟩
  let position : Vec3 := ⟨s.position.x + velocity.x * dt,
    s.position.y + velocity.y * dt, s.position.z + velocity.z * dt⟩
  let w := newAngularVelocity m aero position velocity s.rotation s.controls
    s.angularVelocity dt
  let rotation : Att := ⟨s.rotation.pitch + w.pitch * dt,
    s.rotation.roll + w.roll * dt, s.rotation.yaw + w.yaw * dt⟩
  { position := position
    rotation := rotation
    velocity := velocity
    angularVelocity := w
    controls := s.controls
    engine := fe.2 }

/-- The ground-contact clamp at the end of Aircraft.update: below y = 0 the
altitude is clamped to 0, vertical velocity zeroed and horizontal velocity
damped by 0.95. -/
def groundContact (s : AircraftState) : AircraftState :=
  if s.position.y < 0 then
    { s with
      position := { s.position with y := 0 }
      velocity := ⟨s.velocity.x * 0.95, 0, s.velocity.z * 0.95⟩ }
  else s

/-- Aircraft.update: the integration followed by the ground-contact clamp. -/
def aircraftUpdate (m : MathOps) (aero : Aerodynamics) (s : AircraftState)
    (dt : ℚ) : AircraftState :=
  groundContact (aircraftUpdatePre m aero s dt)

/-- The ground-contact postcondition: if the freshly integrated position has
y < 0 then after update the state has y = 0, zero vertical velocity and
0.95-damped horizontal velocity; in every case y >= 0 afterwards. -/
def groundContactSpec (m : MathOps) (aero : Aerodynamics) (s : AircraftState)
    (dt : ℚ) : Prop :=
  ((aircraftUpdatePre m aero s dt).position.y < 0 →
    (aircraftUpdate m aero s dt).position.y = 0 ∧
      (aircraftUpdate m aero s dt).velocity.y = 0 ∧
      (aircraftUpdate m aero s dt).velocity.x =
        (aircraftUpdatePre m aero s dt).velocity.x * 0.95 ∧
      (aircraftUpdate m aero s dt).velocity.z =
        (aircraftUpdatePre m aero s dt).velocity.z * 0.95) ∧
    0 ≤ (aircraftUpdate m aero s dt).position.y

/-- C4: ground-contact postcondition of the integrator: for every pre-state
and dt > 0, if the position computed inside update(dt) would have y < 0,
the state after update has position.y = 0 and velocity.y = 0 with horizontal
velocity damped by 0.95; hence after every update position.y >= 0. -/
theorem C4_ground_contact (m : MathOps) (aero : Aerodynamics)
    (s : AircraftState) (dt : ℚ) (hdt : 0 < dt) :
    groundContactSpec m aero s dt := by
  unfold groundContactSpec aircraftUpdate groundContact
  by_cases h : (aircraftUpdatePre m aero s dt).position.y < 0
  · rw [if_pos h]
    exact ⟨fun _ => ⟨rfl, rfl, rfl, rfl⟩, le_refl 0⟩
  · rw [if_neg h]
    push_neg at h
    exact ⟨fun hc => absurd hc (not_lt.mpr h), h⟩

/-- A concrete aircraft state at the origin at rest with the simple-mode
engine, used by the C4 witness. -/
def aircraftSample : AircraftState :=
  { position := ⟨0, 0, 0⟩
    rotation := ⟨0, 0, 0⟩
    velocity := ⟨0, 0, 0⟩
    angularVelocity := ⟨0, 0, 0⟩
    controls := ⟨0, 0, 0, 0, 0⟩
    engine := simpleChar }

/-- Witness for C4 at the sample state with dt = 1. -/
theorem C4_ground_contact_witness :
    (0 : ℚ) < 1 ∧ groundContactSpec mathZero (defaultAero mathZero) aircraftSample 1 :=
  ⟨by norm_num,
    C4_ground_contact mathZero (defaultAero mathZero) aircraftSample 1 (by norm_num)⟩

/-- The Controls record built by the Aircraft constructor. -/
def controlsInit : Controls := ⟨0, 0, 0, 0, 0⟩

/-- C2 counterexample: setControls stores the merged fields verbatim, so
passing elevator = 2 leaves an out-of-range 2 in the stored controls: not
every setter clamps. -/
theorem C2_setControls_no_clamp :
    (setControls controlsInit { elevator := some 2 }).elevator = 2 ∧
      ¬ (setControls controlsInit { elevator := some 2 }).elevator ≤ 1 := by
  norm_num [setControls, controlsInit]

/-- C2 (amended): the throttle setters do clamp: after any
Aircraft.setThrottle call the stored controls.throttle and the engine
throttle are in [0,1], and PropellerEngine.setThrottle clamps to [0,1] for
every argument; but Aircraft.setControls performs no clamping, so the other
control fields are only in range when the inputs are. -/
theorem C2_setThrottle_clamped (s : AircraftState) (x : ℚ) :
    0 ≤ (aircraftSetThrottle s x).controls.throttle ∧
      (aircraftSetThrottle s x).controls.throttle ≤ 1 ∧
      0 ≤ (aircraftSetThrottle s x).engine.throttle ∧
      (aircraftSetThrottle s x).engine.throttle ≤ 1 ∧
      ∀ e : EngineChar, ∀ y : ℚ,
        0 ≤ (engineSetThrottle e y).throttle ∧ (engineSetThrottle e y).throttle ≤ 1 := by
  simp only [aircraftSetThrottle, engineSetThrottle]
  exact ⟨le_max_left _ _, max_le (by norm_num) (min_le_left _ _),
    le_max_left _ _, max_le (by norm_num) (min_le_left _ _),
    fun e y => ⟨le_max_left _ _, max_le (by norm_num) (min_le_left _ _)⟩⟩

end WsFlight
